import Mathlib

/-
Verification development for `src/automate_vent_pi.py`, centred on the class
`VentDehumidifyStateMachine` (lines 570-836), its smoothing buffers, cycling
policies, debounce gate and actuator commands.

Modelling conventions:
* Python floats (sensor values, thresholds, durations) are modelled as
  rationals `ℚ`; the decision logic only adds, subtracts, divides, compares
  and takes `%`, so the rational model mirrors the source expressions term
  by term.
* `datetime` instants are modelled as rationals counting seconds
  (`datetime.now()` at the start of a cycle; `(a - b).total_seconds()`
  becomes plain subtraction).  All `self._now()` calls inside one `update`
  cycle are modelled as the same instant.
* `collections.deque(maxlen=n)` is a `List ℚ` whose `append` drops from
  the left on overflow (`dequeAppend`).
* Python float `%` (used for cycle phases) is `pyMod a b = a - b * ⌊a / b⌋`,
  which matches `math.fmod`-style `%` semantics for a nonzero modulus; a
  zero modulus raises `ZeroDivisionError` in Python, which the embedding
  models by returning `none` from the function that would evaluate it.
* The GPIO pin states tracked by `GPIOController.pins` (written through
  `DehumidifyVentController.activate_/deactivate_...`, read through
  `get_vent_state`/`get_dehumidifier_state`) are carried in the machine
  state as two booleans.
* The external collaborators (`PurpleAirSensor.update`, `DHT11Sensor.read`)
  are modelled as per-cycle inputs: an optional outdoor sample (`none` when
  `aqi.update()` returns `False`) and an optional indoor reading (`none`
  when the DHT11 read fails or has no data).
-/

namespace VentSM

/-- Python float modulo with the divisor's sign convention:
`a % b = a - b * floor(a / b)` (line 748 / line 768 use `%` on floats). -/
def pyMod (a b : ℚ) : ℚ := a - b * ⌊a / b⌋

/-- Source `deque(maxlen=maxlen)` append semantics (lines 617-623, 660-662,
677-678): the new element goes to the right and, if the deque is at
capacity, the oldest (leftmost) element is evicted. -/
def dequeAppend (maxlen : Nat) (d : List ℚ) (x : ℚ) : List ℚ :=
  let d' := d ++ [x]
  d'.drop (d'.length - maxlen)

/-- Source `VentDehumidifyStateMachine._avg` (lines 636-639): `0.0` for an empty
deque, otherwise `sum(d) / len(d)`. -/
def avg (d : List ℚ) : ℚ := if d.length = 0 then 0 else d.sum / d.length

/-- Constructor configuration of `VentDehumidifyStateMachine` (lines
577-614).  Field names follow the attribute names assigned in `__init__`.
`VENT_WITH_DEHUM_HUMIDITY_THRESH` is stored by the source but never read
in `update` (the dehumidifier rule uses the literals `50` and `60`). -/
structure Config where
  AQI_THRESHOLD : ℚ
  IDEAL_HUMIDITY : ℚ
  IDEAL_TEMPERATURE_F : ℚ
  MAX_OUTDOOR_HUMIDITY : ℚ
  MIN_OUTDOOR_TEMPERATURE_F : ℚ
  MAX_OUTDOOR_TEMPERATURE_F : ℚ
  VENT_WITH_DEHUM_HUMIDITY_THRESH : ℚ
  smoothing_samples : Nat
  min_change_interval_s : ℚ
  limited_on_s : ℚ
  limited_off_s : ℚ
  quick_vent_s : ℚ
deriving DecidableEq

/-- Source `self.limited_cycle_len = self.limited_on_s + self.limited_off_s`. -/
def Config.limited_cycle_len (cfg : Config) : ℚ :=
  cfg.limited_on_s + cfg.limited_off_s

/-- Mutable state of one `VentDehumidifyStateMachine` instance (lines
616-631) together with the two GPIO output pin states owned by the
controller (both initialised LOW by `setup_pin`, lines 470-473). -/
structure SMState where
  temp_hist : List ℚ
  hum_hist : List ℚ
  aqi_hist : List ℚ
  indoor_temp_hist : List ℚ
  indoor_hum_hist : List ℚ
  last_vent_change : Option ℚ
  last_dehum_change : Option ℚ
  limited_cycle_start : Option ℚ
  limited_mode : Bool
  quick_vent_start : Option ℚ
  quick_vent_mode : Bool
  vent_pin : Bool
  dehum_pin : Bool
deriving DecidableEq

/-- Outdoor data exposed by `PurpleAirSensor` after a successful
`update()` (lines 655-657 read `pm25_aqi`, `humidity`, `temperature_f`). -/
structure OutdoorSample where
  pm25_aqi : ℚ
  humidity : ℚ
  temperature_f : ℚ
deriving DecidableEq

/-- The per-cycle inputs of `VentDehumidifyStateMachine.update` (line 641):
the outdoor fetch result (`none` = `aqi.update()` returned `False`), the
indoor DHT11 reading (`none` = read failed or no data, line 671), the
optional `indoor_humidity` / `indoor_temperature` arguments, and the cycle
instant returned by `self._now()`. -/
structure UpdateInput where
  outdoor : Option OutdoorSample
  indoor : Option (ℚ × ℚ)
  arg_indoor_humidity : Option ℚ
  arg_indoor_temperature : Option ℚ
  now : ℚ
deriving DecidableEq

/-- Source `temp_in_range` (line 703). -/
abbrev temp_in_range (cfg : Config) (avg_outdoor_temp : ℚ) : Prop :=
  cfg.MIN_OUTDOOR_TEMPERATURE_F ≤ avg_outdoor_temp ∧
    avg_outdoor_temp ≤ cfg.MAX_OUTDOOR_TEMPERATURE_F

/-- Source `temp_would_bring_closer` (line 704). -/
abbrev temp_would_bring_closer (cfg : Config) (avg_outdoor_temp indoor_temperature : ℚ) : Prop :=
  |avg_outdoor_temp - cfg.IDEAL_TEMPERATURE_F| < |indoor_temperature - cfg.IDEAL_TEMPERATURE_F|

/-- Source `outdoor_cooler_than_ideal` (line 705). -/
abbrev outdoor_cooler_than_ideal (cfg : Config) (avg_outdoor_temp : ℚ) : Prop :=
  avg_outdoor_temp < cfg.IDEAL_TEMPERATURE_F

/-- Source `outdoor_too_cold` (line 706). -/
abbrev outdoor_too_cold (cfg : Config) (avg_outdoor_temp : ℚ) : Prop :=
  avg_outdoor_temp < cfg.IDEAL_TEMPERATURE_F - 15

/-- Source `indoor_warmer_than_ideal` (line 707). -/
abbrev indoor_warmer_than_ideal (cfg : Config) (indoor_temperature : ℚ) : Prop :=
  indoor_temperature > cfg.IDEAL_TEMPERATURE_F

/-- Source `outdoor_hotter_than_ideal` (line 708). -/
abbrev outdoor_hotter_than_ideal (cfg : Config) (avg_outdoor_temp : ℚ) : Prop :=
  avg_outdoor_temp > cfg.IDEAL_TEMPERATURE_F

/-- Result of the indoor-reading step (lines 668-698): the possibly grown
indoor history buffers and the `indoor_temperature` / `indoor_humidity`
values the decision logic will use. -/
structure IndoorValues where
  indoor_temp_hist : List ℚ
  indoor_hum_hist : List ℚ
  indoor_temperature : ℚ
  indoor_humidity : ℚ
deriving DecidableEq

/-- Lines 668-698: on a DHT11 success push the reading into the indoor
buffers and use their averages; on failure use the previous averages when
the buffers are non-empty, else the provided arguments or the fixed
defaults (40.0 % humidity, 70.0 °F). -/
def indoorValues (cfg : Config) (s : SMState) (inp : UpdateInput) : IndoorValues :=
  match inp.indoor with
  | some (t, h) =>
    let ith := dequeAppend cfg.smoothing_samples s.indoor_temp_hist t
    let ihh := dequeAppend cfg.smoothing_samples s.indoor_hum_hist h
    ⟨ith, ihh, avg ith, avg ihh⟩
  | none =>
    if 0 < s.indoor_temp_hist.length ∧ 0 < s.indoor_hum_hist.length then
      ⟨s.indoor_temp_hist, s.indoor_hum_hist,
        avg s.indoor_temp_hist, avg s.indoor_hum_hist⟩
    else
      ⟨s.indoor_temp_hist, s.indoor_hum_hist,
        inp.arg_indoor_temperature.getD 70, inp.arg_indoor_humidity.getD 40⟩

/-- Outcome of the vent decision (lines 710-779): the desired vent state
and the cycling-mode fields after this cycle's mutations. -/
structure VentDecision where
  desired_vent : Bool
  limited_mode : Bool
  limited_cycle_start : Option ℚ
  quick_vent_mode : Bool
  quick_vent_start : Option ℚ
deriving DecidableEq

/-- Lines 710-779, the vent decision with its priority order: AQI check
(715-717), outdoor-temperature range check (720-722), outdoor-humidity
rain guard (724-726), mode clearing plus vent ON when
`temp_would_bring_closer` (728-738), the quick-vent duty cycle (739-759,
total cycle `60 * 60` seconds) and the limited-vent duty cycle (760-779,
total cycle `limited_cycle_len`).  `none` models the `ZeroDivisionError`
Python raises at line 768 when `limited_cycle_len == 0`. -/
def ventDecision (cfg : Config) (avg_aqi avg_outdoor_hum avg_outdoor_temp indoor_temperature : ℚ)
    (limited_mode : Bool) (limited_cycle_start : Option ℚ)
    (quick_vent_mode : Bool) (quick_vent_start : Option ℚ) (now : ℚ) : Option VentDecision :=
  if avg_aqi > cfg.AQI_THRESHOLD then
    some ⟨false, limited_mode, limited_cycle_start, quick_vent_mode, quick_vent_start⟩
  else if ¬ temp_in_range cfg avg_outdoor_temp then
    some ⟨false, limited_mode, limited_cycle_start, quick_vent_mode, quick_vent_start⟩
  else if avg_outdoor_hum > cfg.MAX_OUTDOOR_HUMIDITY then
    some ⟨false, limited_mode, limited_cycle_start, quick_vent_mode, quick_vent_start⟩
  else if temp_would_bring_closer cfg avg_outdoor_temp indoor_temperature then
    some ⟨true, false, none, false, none⟩
  else if (outdoor_hotter_than_ideal cfg avg_outdoor_temp ∨ outdoor_too_cold cfg avg_outdoor_temp)
      ∧ temp_in_range cfg avg_outdoor_temp then
    let start := quick_vent_start.getD now
    let elapsed := now - start
    let quick_cycle_len : ℚ := 60 * 60
    let phase := pyMod elapsed quick_cycle_len
    some ⟨decide (phase < cfg.quick_vent_s), limited_mode, limited_cycle_start, true, some start⟩
  else
    let start := limited_cycle_start.getD now
    let elapsed := now - start
    if cfg.limited_cycle_len = 0 then none
    else
      let phase := pyMod elapsed cfg.limited_cycle_len
      some ⟨decide (phase < cfg.limited_on_s), true, some start, quick_vent_mode, quick_vent_start⟩

/-- Lines 781-806, the dehumidifier decision.  `desired_dehum` starts
`False` (line 712) and is only assigned inside the branches shown; in
particular, in the `outdoor_cooler_than_ideal` branch with
`desired_vent == False` no assignment happens and the baseline `False`
falls through. -/
def dehumDecision (cfg : Config) (desired_vent : Bool)
    (avg_outdoor_temp indoor_temperature indoor_humidity : ℚ) : Bool :=
  if indoor_humidity > cfg.IDEAL_HUMIDITY ∧ indoor_humidity > 50 then
    if outdoor_cooler_than_ideal cfg avg_outdoor_temp then
      if desired_vent then
        if temp_would_bring_closer cfg avg_outdoor_temp indoor_temperature ∧
            indoor_warmer_than_ideal cfg indoor_temperature then false
        else true
      else false
    else if indoor_warmer_than_ideal cfg indoor_temperature then
      if desired_vent then false
      else if indoor_humidity > 60 then true
      else false
    else false
  else false

/-- Lines 813-825, the vent actuation: the AQI-exceeded closure is applied
immediately whenever the vent is currently open (814-816, recording `now`
as the last change time), every other change goes through the debounce
check (817-825).  Returns the new pin state and the new
`_last_vent_change`. -/
def ventActuate (cfg : Config) (avg_aqi : ℚ) (desired_vent current_vent : Bool)
    (last_vent_change : Option ℚ) (now : ℚ) : Bool × Option ℚ :=
  if avg_aqi > cfg.AQI_THRESHOLD ∧ current_vent = true then (false, some now)
  else if desired_vent ≠ current_vent then
    match last_vent_change with
    | none => (desired_vent, some now)
    | some t =>
      if now - t ≥ cfg.min_change_interval_s then (desired_vent, some now)
      else (current_vent, last_vent_change)
  else (current_vent, last_vent_change)

/-- Lines 827-836, the dehumidifier actuation through the debounce check.
Returns the new pin state and the new `_last_dehum_change`. -/
def dehumActuate (cfg : Config) (desired_dehum current_dehum : Bool)
    (last_dehum_change : Option ℚ) (now : ℚ) : Bool × Option ℚ :=
  if desired_dehum ≠ current_dehum then
    match last_dehum_change with
    | none => (desired_dehum, some now)
    | some t =>
      if now - t ≥ cfg.min_change_interval_s then (desired_dehum, some now)
      else (current_dehum, last_dehum_change)
  else (current_dehum, last_dehum_change)

/-- Source `VentDehumidifyStateMachine.update` (lines 641-836).  `none` on the
outdoor path means `aqi.update()` failed and the method returned with no
state mutated (lines 651-653 run before any mutation); `none` as a result
models the uncaught `ZeroDivisionError` of the limited cycle. -/
def update (cfg : Config) (s : SMState) (inp : UpdateInput) : Option SMState :=
  match inp.outdoor with
  | none => some s
  | some od =>
    let aqi_hist := dequeAppend cfg.smoothing_samples s.aqi_hist od.pm25_aqi
    let hum_hist := dequeAppend cfg.smoothing_samples s.hum_hist od.humidity
    let temp_hist := dequeAppend cfg.smoothing_samples s.temp_hist od.temperature_f
    let avg_aqi := avg aqi_hist
    let avg_outdoor_hum := avg hum_hist
    let avg_outdoor_temp := avg temp_hist
    let iv := indoorValues cfg s inp
    match ventDecision cfg avg_aqi avg_outdoor_hum avg_outdoor_temp iv.indoor_temperature
        s.limited_mode s.limited_cycle_start s.quick_vent_mode s.quick_vent_start inp.now with
    | none => none
    | some vd =>
      let desired_dehum :=
        dehumDecision cfg vd.desired_vent avg_outdoor_temp iv.indoor_temperature iv.indoor_humidity
      let va := ventActuate cfg avg_aqi vd.desired_vent s.vent_pin s.last_vent_change inp.now
      let da := dehumActuate cfg desired_dehum s.dehum_pin s.last_dehum_change inp.now
      some
        { temp_hist := temp_hist
          hum_hist := hum_hist
          aqi_hist := aqi_hist
          indoor_temp_hist := iv.indoor_temp_hist
          indoor_hum_hist := iv.indoor_hum_hist
          last_vent_change := va.2
          last_dehum_change := da.2
          limited_cycle_start := vd.limited_cycle_start
          limited_mode := vd.limited_mode
          quick_vent_start := vd.quick_vent_start
          quick_vent_mode := vd.quick_vent_mode
          vent_pin := va.1
          dehum_pin := da.1 }

/-- The state every engine starts from: empty deques, unset timestamps,
inactive modes (lines 616-631) and both GPIO output pins LOW (lines
470-473 via lines 539-540). -/
def initState : SMState :=
  ⟨[], [], [], [], [], none, none, none, false, none, false, false, false⟩

/-- Source `VentDehumidifyStateMachine.__init__` (lines 577-631) as observed from
the caller: the body only stores the parameters and builds the five
`deque(maxlen=smoothing_samples)` buffers.  The single failure mode is
`deque`'s own `ValueError` for a negative `maxlen`; no other parameter is
validated. -/
def mkStateMachine (aqi_threshold ideal_humidity ideal_temperature_f max_outdoor_humidity
    vent_with_dehum_humidity_threshold min_outdoor_temp_f max_outdoor_temp_f : ℚ)
    (smoothing_samples : ℤ)
    (min_change_interval_s limited_on_s limited_off_s quick_vent_s : ℚ) :
    Except String (Config × SMState) :=
  if smoothing_samples < 0 then
    Except.error "maxlen must be non-negative"
  else
    Except.ok
      (⟨aqi_threshold, ideal_humidity, ideal_temperature_f, max_outdoor_humidity,
        min_outdoor_temp_f, max_outdoor_temp_f, vent_with_dehum_humidity_threshold,
        smoothing_samples.toNat, min_change_interval_s,
        limited_on_s, limited_off_s, quick_vent_s⟩,
        initState)

/-- The default configuration of lines 582-593. -/
def cfgDefault : Config :=
  { AQI_THRESHOLD := 50
    IDEAL_HUMIDITY := 35
    IDEAL_TEMPERATURE_F := 72
    MAX_OUTDOOR_HUMIDITY := 85
    MIN_OUTDOOR_TEMPERATURE_F := 0
    MAX_OUTDOOR_TEMPERATURE_F := 90
    VENT_WITH_DEHUM_HUMIDITY_THRESH := 60
    smoothing_samples := 5
    min_change_interval_s := 60
    limited_on_s := 600
    limited_off_s := 3000
    quick_vent_s := 300 }

/- ------------------------------------------------------------------ -/
/- Spec-side definitions used for refinement comparisons.               -/
/- ------------------------------------------------------------------ -/

/-- Following the spec's words for the smoothing buffer: the window of at
most the last `N` pushed values, the `N` most recent, oldest evicted
first. -/
def specLastWindow (N : Nat) (xs : List ℚ) : List ℚ := xs.drop (xs.length - N)

/-- Following the spec's words: the arithmetic mean of the window, `0.0`
for an empty window. -/
def specMean (l : List ℚ) : ℚ := if l.length = 0 then 0 else l.sum / l.length

/-- A whole sequence of `push` calls into an initially empty buffer of
window size `N`. -/
def pushAll (N : Nat) (xs : List ℚ) : List ℚ := xs.foldl (dequeAppend N) []

/- ------------------------------------------------------------------ -/
/- Helper lemmas.                                                       -/
/- ------------------------------------------------------------------ -/

theorem dequeAppend_length_le (N : Nat) (d : List ℚ) (x : ℚ) :
    (dequeAppend N d x).length ≤ N := by
  simp only [dequeAppend, List.length_drop, List.length_append, List.length_cons,
    List.length_nil]
  omega

theorem foldl_dequeAppend (N : Nat) (xs : List ℚ) :
    ∀ d : List ℚ, d.length ≤ N →
      xs.foldl (dequeAppend N) d = (d ++ xs).drop ((d ++ xs).length - N) := by
  induction xs with
  | nil =>
    intro d hd
    simp [Nat.sub_eq_zero_of_le hd]
  | cons x xs ih =>
    intro d hd
    rw [List.foldl_cons, ih (dequeAppend N d x) (dequeAppend_length_le N d x)]
    have hde : dequeAppend N d x = (d ++ [x]).drop ((d ++ [x]).length - N) := rfl
    rw [hde]
    rw [← List.drop_append_of_le_length (Nat.sub_le (d ++ [x]).length N), List.drop_drop]
    rw [List.append_assoc, List.singleton_append]
    congr 1
    simp only [List.length_drop, List.length_append, List.length_cons, List.length_nil]
    omega

end VentSM

namespace VentSM

/-- Claim C4: for every sequence of values pushed into a smoothing buffer
with window size `N`, the buffer's length is always at most `N`, its
contents are exactly the at-most-`N` most recently pushed values (oldest
evicted first), its average is the arithmetic mean of those values, and
the average of an empty buffer is `0.0`. -/
theorem smoothing_buffer_c4 (N : Nat) (xs : List ℚ) :
    (pushAll N xs).length ≤ N ∧
    pushAll N xs = specLastWindow N xs ∧
    avg (pushAll N xs) = specMean (specLastWindow N xs) ∧
    avg [] = 0 := by
  have hpush : pushAll N xs = specLastWindow N xs := by
    have h := foldl_dequeAppend N xs [] (by simp)
    simpa [pushAll, specLastWindow] using h
  refine ⟨?_, hpush, ?_, rfl⟩
  · rw [hpush]
    simp only [specLastWindow, List.length_drop]
    omega
  · rw [hpush]
    rfl

/-- Claim C5: a cycle whose outdoor refresh fails returns with the engine
state entirely unchanged (the early return at lines 651-653 runs before
any mutation). -/
theorem outdoor_failure_aborts_c5 (cfg : Config) (s : SMState) (inp : UpdateInput)
    (h : inp.outdoor = none) : update cfg s inp = some s := by
  simp [update, h]

/-- Witness for C5 at a concrete failing input. -/
theorem outdoor_failure_aborts_c5_witness :
    (⟨none, none, none, none, 0⟩ : UpdateInput).outdoor = none ∧
    update cfgDefault initState ⟨none, none, none, none, 0⟩ = some initState :=
  ⟨rfl, outdoor_failure_aborts_c5 cfgDefault initState _ rfl⟩

end VentSM

namespace VentSM

/-- One-step characterisation of `update` on a successful outdoor fetch,
given the vent decision's outcome. -/
theorem update_unfold (cfg : Config) (s : SMState) (inp : UpdateInput) (od : OutdoorSample)
    (hod : inp.outdoor = some od) (vd : VentDecision)
    (hvd : ventDecision cfg (avg (dequeAppend cfg.smoothing_samples s.aqi_hist od.pm25_aqi))
        (avg (dequeAppend cfg.smoothing_samples s.hum_hist od.humidity))
        (avg (dequeAppend cfg.smoothing_samples s.temp_hist od.temperature_f))
        (indoorValues cfg s inp).indoor_temperature
        s.limited_mode s.limited_cycle_start s.quick_vent_mode s.quick_vent_start inp.now
        = some vd) :
    update cfg s inp = some
      { temp_hist := dequeAppend cfg.smoothing_samples s.temp_hist od.temperature_f
        hum_hist := dequeAppend cfg.smoothing_samples s.hum_hist od.humidity
        aqi_hist := dequeAppend cfg.smoothing_samples s.aqi_hist od.pm25_aqi
        indoor_temp_hist := (indoorValues cfg s inp).indoor_temp_hist
        indoor_hum_hist := (indoorValues cfg s inp).indoor_hum_hist
        last_vent_change := (ventActuate cfg
          (avg (dequeAppend cfg.smoothing_samples s.aqi_hist od.pm25_aqi))
          vd.desired_vent s.vent_pin s.last_vent_change inp.now).2
        last_dehum_change := (dehumActuate cfg
          (dehumDecision cfg vd.desired_vent
            (avg (dequeAppend cfg.smoothing_samples s.temp_hist od.temperature_f))
            (indoorValues cfg s inp).indoor_temperature
            (indoorValues cfg s inp).indoor_humidity)
          s.dehum_pin s.last_dehum_change inp.now).2
        limited_cycle_start := vd.limited_cycle_start
        limited_mode := vd.limited_mode
        quick_vent_start := vd.quick_vent_start
        quick_vent_mode := vd.quick_vent_mode
        vent_pin := (ventActuate cfg
          (avg (dequeAppend cfg.smoothing_samples s.aqi_hist od.pm25_aqi))
          vd.desired_vent s.vent_pin s.last_vent_change inp.now).1
        dehum_pin := (dehumActuate cfg
          (dehumDecision cfg vd.desired_vent
            (avg (dequeAppend cfg.smoothing_samples s.temp_hist od.temperature_f))
            (indoorValues cfg s inp).indoor_temperature
            (indoorValues cfg s inp).indoor_humidity)
          s.dehum_pin s.last_dehum_change inp.now).1 } := by
  simp only [update, hod, hvd]

/-- Fact: `update` dies when the vent decision hits the zero-length limited
cycle (Python `ZeroDivisionError`). -/
theorem update_unfold_none (cfg : Config) (s : SMState) (inp : UpdateInput) (od : OutdoorSample)
    (hod : inp.outdoor = some od)
    (hvd : ventDecision cfg (avg (dequeAppend cfg.smoothing_samples s.aqi_hist od.pm25_aqi))
        (avg (dequeAppend cfg.smoothing_samples s.hum_hist od.humidity))
        (avg (dequeAppend cfg.smoothing_samples s.temp_hist od.temperature_f))
        (indoorValues cfg s inp).indoor_temperature
        s.limited_mode s.limited_cycle_start s.quick_vent_mode s.quick_vent_start inp.now
        = none) :
    update cfg s inp = none := by
  simp only [update, hod, hvd]

/-- The AQI check short-circuits the whole vent decision (lines 714-717):
the desired vent state is `False` and the cycling-mode fields pass through
untouched. -/
theorem ventDecision_high_aqi (cfg : Config)
    (avg_aqi avg_outdoor_hum avg_outdoor_temp indoor_temperature : ℚ)
    (lm qm : Bool) (ls qs : Option ℚ) (now : ℚ)
    (ha : avg_aqi > cfg.AQI_THRESHOLD) :
    ventDecision cfg avg_aqi avg_outdoor_hum avg_outdoor_temp indoor_temperature
      lm ls qm qs now = some ⟨false, lm, ls, qm, qs⟩ := by
  rw [ventDecision, if_pos ha]

/-- With the AQI over threshold and the desired vent state `False`, the
actuation step always ends with the vent pin LOW, and records `now` as the
last change when the vent was open (the emergency path, lines 814-816). -/
theorem ventActuate_high_aqi (cfg : Config) (a : ℚ) (c : Bool) (l : Option ℚ) (now : ℚ)
    (ha : a > cfg.AQI_THRESHOLD) :
    (ventActuate cfg a false c l now).1 = false ∧
    (c = true → ventActuate cfg a false c l now = (false, some now)) := by
  cases c
  · constructor
    · simp [ventActuate]
    · intro h
      exact absurd h (by simp)
  · constructor
    · rw [ventActuate.eq_def, if_pos ⟨ha, rfl⟩]
    · intro _
      rw [ventActuate.eq_def, if_pos ⟨ha, rfl⟩]

end VentSM

namespace VentSM

/-- Claim C1: in every update cycle whose (smoothed) average AQI exceeds
the threshold the resulting vent pin is LOW, and if the vent was ON it is
deactivated in that same cycle with `now` recorded as the vent's last
change time, regardless of the debounce timer (the statement holds for
every `last_vent_change`). -/
theorem aqi_forces_vent_closed_c1 (cfg : Config) (s : SMState) (inp : UpdateInput)
    (od : OutdoorSample) (hod : inp.outdoor = some od)
    (haqi : avg (dequeAppend cfg.smoothing_samples s.aqi_hist od.pm25_aqi) > cfg.AQI_THRESHOLD) :
    (update cfg s inp).map SMState.vent_pin = some false ∧
    (s.vent_pin = true →
      (update cfg s inp).map SMState.last_vent_change = some (some inp.now)) := by
  have hvd := ventDecision_high_aqi cfg
    (avg (dequeAppend cfg.smoothing_samples s.aqi_hist od.pm25_aqi))
    (avg (dequeAppend cfg.smoothing_samples s.hum_hist od.humidity))
    (avg (dequeAppend cfg.smoothing_samples s.temp_hist od.temperature_f))
    (indoorValues cfg s inp).indoor_temperature
    s.limited_mode s.quick_vent_mode s.limited_cycle_start s.quick_vent_start inp.now haqi
  rw [update_unfold cfg s inp od hod _ hvd]
  have hva := ventActuate_high_aqi cfg
    (avg (dequeAppend cfg.smoothing_samples s.aqi_hist od.pm25_aqi))
    s.vent_pin s.last_vent_change inp.now haqi
  constructor
  · simpa using hva.1
  · intro hpin
    rw [hva.2 hpin]
    simp

/-- Witness for C1: vent ON, debounce timer set just one second earlier,
AQI sample 100 against threshold 50 — the vent still closes immediately. -/
theorem aqi_forces_vent_closed_c1_witness :
    avg (dequeAppend 5 [] 100) > (50:ℚ) ∧
    (update cfgDefault
        ⟨[], [], [], [], [], some (-1), none, none, false, none, false, true, false⟩
        ⟨some ⟨100, 50, 70⟩, none, none, none, 0⟩).map SMState.vent_pin = some false ∧
    (update cfgDefault
        ⟨[], [], [], [], [], some (-1), none, none, false, none, false, true, false⟩
        ⟨some ⟨100, 50, 70⟩, none, none, none, 0⟩).map SMState.last_vent_change
      = some (some 0) := by
  have h := aqi_forces_vent_closed_c1 cfgDefault
    ⟨[], [], [], [], [], some (-1), none, none, false, none, false, true, false⟩
    ⟨some ⟨100, 50, 70⟩, none, none, none, 0⟩ ⟨100, 50, 70⟩ rfl
    (by norm_num [avg, dequeAppend, cfgDefault])
  exact ⟨by norm_num [avg, dequeAppend], h.1, h.2 rfl⟩

end VentSM

namespace VentSM

/-- Claim C2: while a cycling mode is active with start time `T0` and the
current instant is `T0 + t`, the desired vent state is ON exactly when the
phase test holds: in quick-vent mode `t % 3600 < quick_vent_s`, in
limited-vent mode `t % (limited_on_s + limited_off_s) < limited_on_s`
(the limited cycle length must be nonzero or the source raises
`ZeroDivisionError` instead of deciding anything). -/
theorem cycling_phase_c2 (cfg : Config)
    (avg_aqi avg_outdoor_hum avg_outdoor_temp indoor_temperature T0 t : ℚ)
    (lm qm : Bool) (ls qs : Option ℚ) :
    (¬ avg_aqi > cfg.AQI_THRESHOLD →
      temp_in_range cfg avg_outdoor_temp →
      ¬ avg_outdoor_hum > cfg.MAX_OUTDOOR_HUMIDITY →
      ¬ temp_would_bring_closer cfg avg_outdoor_temp indoor_temperature →
      (outdoor_hotter_than_ideal cfg avg_outdoor_temp ∨ outdoor_too_cold cfg avg_outdoor_temp) →
      (ventDecision cfg avg_aqi avg_outdoor_hum avg_outdoor_temp indoor_temperature
          lm ls qm (some T0) (T0 + t)).map VentDecision.desired_vent
        = some (decide (pyMod t (60 * 60) < cfg.quick_vent_s))) ∧
    (¬ avg_aqi > cfg.AQI_THRESHOLD →
      temp_in_range cfg avg_outdoor_temp →
      ¬ avg_outdoor_hum > cfg.MAX_OUTDOOR_HUMIDITY →
      ¬ temp_would_bring_closer cfg avg_outdoor_temp indoor_temperature →
      ¬ (outdoor_hotter_than_ideal cfg avg_outdoor_temp ∨ outdoor_too_cold cfg avg_outdoor_temp) →
      cfg.limited_cycle_len ≠ 0 →
      (ventDecision cfg avg_aqi avg_outdoor_hum avg_outdoor_temp indoor_temperature
          lm (some T0) qm qs (T0 + t)).map VentDecision.desired_vent
        = some (decide (pyMod t cfg.limited_cycle_len < cfg.limited_on_s))) := by
  constructor
  · intro h1 h2 h3 h4 h5
    rw [ventDecision.eq_def, if_neg h1, if_neg (not_not_intro h2), if_neg h3, if_neg h4,
      if_pos ⟨h5, h2⟩]
    simp [add_sub_cancel_left]
  · intro h1 h2 h3 h4 h5 h6
    rw [ventDecision.eq_def, if_neg h1, if_neg (not_not_intro h2), if_neg h3, if_neg h4,
      if_neg (by intro h; exact h5 h.1)]
    simp only [Option.getD_some]
    rw [if_neg h6]
    simp [add_sub_cancel_left]

/-- Witness for C2: with the default configuration, a quick-vent cycle at
phase 120 s (< 300 s ON) is ON, and a limited-vent cycle at phase 700 s
(≥ 600 s ON window) is OFF. -/
theorem cycling_phase_c2_witness :
    pyMod 120 (60 * 60) < cfgDefault.quick_vent_s ∧
    (ventDecision cfgDefault 10 50 80 72 false none false (some 0) (0 + 120)).map
      VentDecision.desired_vent = some true ∧
    ¬ pyMod 700 cfgDefault.limited_cycle_len < cfgDefault.limited_on_s ∧
    (ventDecision cfgDefault 10 50 70 70 false (some 0) false none (0 + 700)).map
      VentDecision.desired_vent = some false := by
  have hq := (cycling_phase_c2 cfgDefault 10 50 80 72 0 120 false false none (some 0)).1
    (by norm_num [cfgDefault]) (by norm_num [cfgDefault, temp_in_range])
    (by norm_num [cfgDefault]) (by norm_num [cfgDefault, temp_would_bring_closer])
    (by norm_num [cfgDefault, outdoor_hotter_than_ideal])
  have hl := (cycling_phase_c2 cfgDefault 10 50 70 70 0 700 false false (some 0) none).2
    (by norm_num [cfgDefault]) (by norm_num [cfgDefault, temp_in_range])
    (by norm_num [cfgDefault]) (by norm_num [cfgDefault, temp_would_bring_closer])
    (by norm_num [cfgDefault, outdoor_hotter_than_ideal, outdoor_too_cold])
    (by norm_num [cfgDefault, Config.limited_cycle_len])
  refine ⟨by norm_num [pyMod, cfgDefault], ?_, by norm_num [pyMod, cfgDefault, Config.limited_cycle_len], ?_⟩
  · rw [hq]
    norm_num [pyMod, cfgDefault]
  · rw [hl]
    norm_num [pyMod, cfgDefault, Config.limited_cycle_len]

end VentSM

namespace VentSM

/-- Claim C3: for the vent outside the AQI-emergency path and for the
dehumidifier always, an actuator transition happens exactly when the
desired state differs from the current one and the debounce gate is open
(no prior change recorded, or `now - last_change ≥ min_change_interval_s`);
consequently two consecutive desired-state flips less than
`min_change_interval_s` apart produce only one actual transition. -/
theorem debounce_gate_c3 (cfg : Config) :
    (∀ (a : ℚ) (d c : Bool) (l : Option ℚ) (now : ℚ),
      ¬ (a > cfg.AQI_THRESHOLD ∧ c = true) →
      ((ventActuate cfg a d c l now).1 ≠ c ↔
        (d ≠ c ∧ (l = none ∨ ∃ t0, l = some t0 ∧ now - t0 ≥ cfg.min_change_interval_s)))) ∧
    (∀ (d c : Bool) (l : Option ℚ) (now : ℚ),
      ((dehumActuate cfg d c l now).1 ≠ c ↔
        (d ≠ c ∧ (l = none ∨ ∃ t0, l = some t0 ∧ now - t0 ≥ cfg.min_change_interval_s)))) ∧
    (∀ (d c : Bool) (t1 t2 : ℚ), d ≠ c → ¬ t2 - t1 ≥ cfg.min_change_interval_s →
      dehumActuate cfg d c none t1 = (d, some t1) ∧
      (dehumActuate cfg c d (some t1) t2).1 = d) ∧
    (∀ (a1 a2 : ℚ) (d c : Bool) (t1 t2 : ℚ), d ≠ c →
      ¬ t2 - t1 ≥ cfg.min_change_interval_s →
      ¬ (a1 > cfg.AQI_THRESHOLD ∧ c = true) → ¬ (a2 > cfg.AQI_THRESHOLD ∧ d = true) →
      ventActuate cfg a1 d c none t1 = (d, some t1) ∧
      (ventActuate cfg a2 c d (some t1) t2).1 = d) := by
  refine ⟨?_, ?_, ?_, ?_⟩
  · intro a d c l now hem
    rw [ventActuate.eq_def, if_neg hem]
    by_cases hdc : d ≠ c
    · rw [if_pos hdc]
      match l with
      | none => simp [hdc]
      | some t0 =>
        by_cases hg : now - t0 ≥ cfg.min_change_interval_s
        · simp [if_pos hg, hdc, hg]
        · simp [if_neg hg, hdc, hg]
    · rw [if_neg hdc]
      simp [hdc]
  · intro d c l now
    rw [dehumActuate.eq_def]
    by_cases hdc : d ≠ c
    · rw [if_pos hdc]
      match l with
      | none => simp [hdc]
      | some t0 =>
        by_cases hg : now - t0 ≥ cfg.min_change_interval_s
        · simp [if_pos hg, hdc, hg]
        · simp [if_neg hg, hdc, hg]
    · rw [if_neg hdc]
      simp [hdc]
  · intro d c t1 t2 hdc hg
    constructor
    · rw [dehumActuate.eq_def, if_pos hdc]
    · rw [dehumActuate.eq_def, if_pos (Ne.symm hdc)]
      simp [hg]
  · intro a1 a2 d c t1 t2 hdc hg hem1 hem2
    constructor
    · rw [ventActuate.eq_def, if_neg hem1, if_pos hdc]
    · rw [ventActuate.eq_def, if_neg hem2, if_pos (Ne.symm hdc)]
      simp [hg]

/-- Witness for C3: with the default 60 s interval, a dehumidifier flip at
`t = 0` is applied and the flip back at `t = 30` is suppressed, and the
same for the vent with a safe AQI; a vent change whose last change is 100 s
old passes the gate. -/
theorem debounce_gate_c3_witness :
    dehumActuate cfgDefault true false none 0 = (true, some 0) ∧
    (dehumActuate cfgDefault false true (some 0) 30).1 = true ∧
    ventActuate cfgDefault 10 true false none 0 = (true, some 0) ∧
    (ventActuate cfgDefault 10 false true (some 0) 30).1 = true ∧
    (ventActuate cfgDefault 10 true false (some (-100)) 0).1 ≠ false := by
  have hd := (debounce_gate_c3 cfgDefault).2.2.1 true false 0 30
    (by simp) (by norm_num [cfgDefault])
  have hv := (debounce_gate_c3 cfgDefault).2.2.2 10 10 true false 0 30
    (by simp) (by norm_num [cfgDefault])
    (by norm_num [cfgDefault]) (by norm_num [cfgDefault])
  have hiff := ((debounce_gate_c3 cfgDefault).1 10 true false (some (-100)) 0
    (by norm_num [cfgDefault])).mpr
    ⟨by simp, Or.inr ⟨-100, rfl, by norm_num [cfgDefault]⟩⟩
  exact ⟨hd.1, hd.2, hv.1, hv.2, hiff⟩

end VentSM

namespace VentSM

/-- The claim's own reading of the outdoor-cooler dehumidifier rule
(modelled from the claim's words, for comparison with the source): ON,
except when venting is already occurring while outdoor air would bring
indoor closer to ideal and indoor is already warmer than ideal. -/
def claimDehumCoolerRule (cfg : Config) (desired_vent : Bool)
    (avg_outdoor_temp indoor_temperature : ℚ) : Bool :=
  ! (desired_vent && decide (temp_would_bring_closer cfg avg_outdoor_temp indoor_temperature)
      && decide (indoor_warmer_than_ideal cfg indoor_temperature))

/-- Counterexample to C6: default configuration, indoor humidity 65 %
(above ideal 35 and above 50), outdoor average 50 °F (cooler than ideal
72 °F), indoor 80 °F, and `desired_vent = false`.  The exception clause of
the claim does not apply (venting is not occurring), so the claim demands
dehumidifier ON, but the source's `outdoor_cooler` branch only ever
assigns `desired_dehum` under `if desired_vent:` (lines 783-792) and the
baseline `False` of line 712 falls through. -/
theorem dehum_cooler_c6_counterexample :
    ((65:ℚ) > cfgDefault.IDEAL_HUMIDITY ∧ (65:ℚ) > 50) ∧
    outdoor_cooler_than_ideal cfgDefault 50 ∧
    claimDehumCoolerRule cfgDefault false 50 80 = true ∧
    dehumDecision cfgDefault false 50 80 65 = false := by
  refine ⟨⟨by norm_num [cfgDefault], by norm_num⟩, by norm_num [cfgDefault], rfl, ?_⟩
  rw [dehumDecision.eq_def,
    if_pos ⟨by norm_num [cfgDefault], by norm_num⟩,
    if_pos (show outdoor_cooler_than_ideal cfgDefault 50 by norm_num [cfgDefault])]
  simp

/-- Claim C6 as amended: when the dehumidifier rule is evaluated (indoor
humidity above ideal and above 50 %) and the outdoor average is cooler
than ideal, the desired dehumidifier state is ON iff venting is occurring
and not (outdoor air would bring indoor closer to ideal while indoor is
already warmer than ideal); in particular it stays OFF whenever venting
is not occurring. -/
theorem dehum_cooler_c6_amended (cfg : Config) (v : Bool) (ot it ih : ℚ)
    (hg : ih > cfg.IDEAL_HUMIDITY ∧ ih > 50)
    (hc : outdoor_cooler_than_ideal cfg ot) :
    dehumDecision cfg v ot it ih =
      (v && ! (decide (temp_would_bring_closer cfg ot it)
          && decide (indoor_warmer_than_ideal cfg it))) := by
  rw [dehumDecision.eq_def, if_pos hg, if_pos hc]
  cases v
  · simp
  · by_cases h : temp_would_bring_closer cfg ot it ∧ indoor_warmer_than_ideal cfg it
    · rw [if_pos rfl, if_pos h]
      simp [h.1, h.2]
    · rw [if_pos rfl, if_neg h]
      rcases Decidable.not_and_iff_or_not.mp h with h1 | h1 <;> simp [h1]

/-- Witness for the amended C6: venting cooler air that does not bring the
temperature closer, with high indoor humidity, turns the dehumidifier ON. -/
theorem dehum_cooler_c6_amended_witness :
    dehumDecision cfgDefault true 50 80 65 = true := by
  have h := dehum_cooler_c6_amended cfgDefault true 50 80 65
    ⟨by norm_num [cfgDefault], by norm_num⟩ (by norm_num [cfgDefault])
  rw [h]
  norm_num [cfgDefault, temp_would_bring_closer]

end VentSM

namespace VentSM

/-- A neutral-temperature cycle (70 °F outdoor against ideal 72 with
indoor defaulting to 70): enters limited-vent mode. -/
def inpNeutral : UpdateInput := ⟨some ⟨10, 50, 70⟩, none, none, none, 0⟩

/-- A later cycle whose outdoor sample pulls the average to 80 °F (hotter
than ideal, still in range): enters quick-vent mode. -/
def inpHot : UpdateInput := ⟨some ⟨10, 50, 90⟩, none, none, none, 100⟩

/-- A later cycle whose outdoor AQI sample pulls the average over the
threshold. -/
def inpAqiSpike : UpdateInput := ⟨some ⟨1000, 50, 70⟩, none, none, none, 100⟩

/-- The state after one `update` from `initState` on `inpNeutral`. -/
def s1Neutral : SMState :=
  ⟨[70], [50], [10], [], [], some 0, none, some 0, true, none, false, true, false⟩

/-- A single update from a state with both cycling-mode flags clear
activates at most one of them: every branch of the vent decision either
passes the flags through, clears both, or sets only its own flag. -/
theorem ventDecision_modes (cfg : Config) (a h t it : ℚ) (lm qm : Bool)
    (ls qs : Option ℚ) (now : ℚ) (vd : VentDecision)
    (hvd : ventDecision cfg a h t it lm ls qm qs now = some vd)
    (hlm : lm = false) (hqm : qm = false) :
    vd.limited_mode = false ∨ vd.quick_vent_mode = false := by
  rw [ventDecision.eq_def] at hvd
  split_ifs at hvd <;>
    first
    | exact Option.noConfusion hvd
    | (obtain rfl := Option.some.inj hvd
       simp [hlm, hqm])

/-- Counterexample to C7: starting from the initial state, a neutral cycle
enters limited-vent mode, and a following hotter cycle enters quick-vent
mode without clearing the limited-vent flag or its start time (lines
741-743 touch only the quick-vent fields) — the reachable state has both
cycling modes simultaneously active. -/
theorem mode_exclusivity_c7_counterexample :
    ((update cfgDefault initState inpNeutral).bind fun s1 =>
        update cfgDefault s1 inpHot).map
      (fun s2 => (s2.limited_mode, s2.quick_vent_mode, s2.limited_cycle_start, s2.quick_vent_start))
      = some (true, true, some 0, some 100) := by
  norm_num [update, ventDecision, dehumDecision, ventActuate, dehumActuate, indoorValues,
    initState, cfgDefault, inpNeutral, inpHot, avg, dequeAppend, pyMod, Config.limited_cycle_len,
    temp_in_range, temp_would_bring_closer, outdoor_too_cold, indoor_warmer_than_ideal,
    outdoor_cooler_than_ideal, outdoor_hotter_than_ideal]

/-- Claim C7 as amended: a single update from a state with both cycling
modes inactive leaves at most one mode active, but mutual exclusivity is
not an invariant of all reachable states — switching from one cycling
branch to the other leaves the previous mode's flag and start time set,
so both modes can be simultaneously active. -/
theorem mode_exclusivity_c7_amended (cfg : Config) (s s' : SMState) (inp : UpdateInput)
    (hlm : s.limited_mode = false) (hqm : s.quick_vent_mode = false)
    (hu : update cfg s inp = some s') :
    ¬ (s'.limited_mode = true ∧ s'.quick_vent_mode = true) := by
  cases hod : inp.outdoor with
  | none =>
    simp only [update, hod, Option.some.injEq] at hu
    subst hu
    simp [hlm]
  | some od =>
    simp only [update, hod] at hu
    split at hu
    · exact Option.noConfusion hu
    · rename_i vd hvd
      obtain rfl := Option.some.inj hu
      rcases ventDecision_modes cfg _ _ _ _ _ _ _ _ _ vd hvd hlm hqm with hm | hm <;>
        simp [hm]

/-- Witness for the amended C7 on the concrete neutral run. -/
theorem mode_exclusivity_c7_witness :
    ¬ (s1Neutral.limited_mode = true ∧ s1Neutral.quick_vent_mode = true) :=
  mode_exclusivity_c7_amended cfgDefault initState s1Neutral inpNeutral rfl rfl
    (by norm_num [update, ventDecision, dehumDecision, ventActuate, dehumActuate, indoorValues,
      initState, cfgDefault, inpNeutral, s1Neutral, avg, dequeAppend, pyMod,
      Config.limited_cycle_len, temp_in_range, temp_would_bring_closer, outdoor_too_cold,
      indoor_warmer_than_ideal, outdoor_cooler_than_ideal, outdoor_hotter_than_ideal])

end VentSM

namespace VentSM

/-- Counterexample to C8: after a neutral cycle enters limited-vent mode
(start time 0), a cycle whose average AQI is over threshold makes the
limited-vent triggering predicate false, yet the mode flag stays set and
the start time is NOT cleared (the AQI branch at lines 715-717 never
touches the mode fields; clearing happens only in the
`temp_would_bring_closer` branch, lines 729-733). -/
theorem mode_lifecycle_c8_counterexample :
    avg (dequeAppend cfgDefault.smoothing_samples
        (dequeAppend cfgDefault.smoothing_samples [] 10) 1000) > cfgDefault.AQI_THRESHOLD ∧
    ((update cfgDefault initState inpNeutral).bind fun s1 =>
        update cfgDefault s1 inpAqiSpike).map
      (fun s2 => (s2.limited_mode, s2.limited_cycle_start))
      = some (true, some 0) := by
  constructor
  · norm_num [avg, dequeAppend, cfgDefault]
  · norm_num [update, ventDecision, dehumDecision, ventActuate, dehumActuate, indoorValues,
      initState, cfgDefault, inpNeutral, inpAqiSpike, avg, dequeAppend, pyMod,
      Config.limited_cycle_len, temp_in_range, temp_would_bring_closer, outdoor_too_cold,
      indoor_warmer_than_ideal, outdoor_cooler_than_ideal, outdoor_hotter_than_ideal]

/-- Claim C8 as amended: while a cycling mode's branch continues to be
taken, its start time is preserved unchanged (phase continuity), and the
start times are cleared exactly in the `temp_would_bring_closer` branch,
which clears both modes together; an exit for any other reason (AQI,
out-of-range temperature, humidity) leaves the flag and start time set, so
the next entry resumes the old phase rather than starting at phase zero. -/
theorem mode_lifecycle_c8_amended (cfg : Config)
    (avg_aqi avg_outdoor_hum avg_outdoor_temp indoor_temperature T0 : ℚ)
    (lm qm : Bool) (ls qs : Option ℚ) (now : ℚ) :
    (¬ avg_aqi > cfg.AQI_THRESHOLD →
      temp_in_range cfg avg_outdoor_temp →
      ¬ avg_outdoor_hum > cfg.MAX_OUTDOOR_HUMIDITY →
      ¬ temp_would_bring_closer cfg avg_outdoor_temp indoor_temperature →
      (outdoor_hotter_than_ideal cfg avg_outdoor_temp ∨ outdoor_too_cold cfg avg_outdoor_temp) →
      (ventDecision cfg avg_aqi avg_outdoor_hum avg_outdoor_temp indoor_temperature
          lm ls qm (some T0) now).map
        (fun vd => (vd.quick_vent_mode, vd.quick_vent_start)) = some (true, some T0)) ∧
    (¬ avg_aqi > cfg.AQI_THRESHOLD →
      temp_in_range cfg avg_outdoor_temp →
      ¬ avg_outdoor_hum > cfg.MAX_OUTDOOR_HUMIDITY →
      ¬ temp_would_bring_closer cfg avg_outdoor_temp indoor_temperature →
      ¬ (outdoor_hotter_than_ideal cfg avg_outdoor_temp ∨ outdoor_too_cold cfg avg_outdoor_temp) →
      cfg.limited_cycle_len ≠ 0 →
      (ventDecision cfg avg_aqi avg_outdoor_hum avg_outdoor_temp indoor_temperature
          lm (some T0) qm qs now).map
        (fun vd => (vd.limited_mode, vd.limited_cycle_start)) = some (true, some T0)) ∧
    (¬ avg_aqi > cfg.AQI_THRESHOLD →
      temp_in_range cfg avg_outdoor_temp →
      ¬ avg_outdoor_hum > cfg.MAX_OUTDOOR_HUMIDITY →
      temp_would_bring_closer cfg avg_outdoor_temp indoor_temperature →
      ventDecision cfg avg_aqi avg_outdoor_hum avg_outdoor_temp indoor_temperature
          lm ls qm qs now = some ⟨true, false, none, false, none⟩) := by
  refine ⟨?_, ?_, ?_⟩
  · intro h1 h2 h3 h4 h5
    rw [ventDecision.eq_def, if_neg h1, if_neg (not_not_intro h2), if_neg h3, if_neg h4,
      if_pos ⟨h5, h2⟩]
    simp
  · intro h1 h2 h3 h4 h5 h6
    rw [ventDecision.eq_def, if_neg h1, if_neg (not_not_intro h2), if_neg h3, if_neg h4,
      if_neg (by intro hk; exact h5 hk.1)]
    simp only [Option.getD_some]
    rw [if_neg h6]
    simp
  · intro h1 h2 h3 h4
    rw [ventDecision.eq_def, if_neg h1, if_neg (not_not_intro h2), if_neg h3, if_pos h4]

/-- Witness for the amended C8 at concrete inputs: a quick-vent cycle with
start time 0 evaluated at 100 s keeps its start, a limited-vent cycle the
same, and `temp_would_bring_closer` clears everything. -/
theorem mode_lifecycle_c8_amended_witness :
    (ventDecision cfgDefault 10 50 80 72 true (some 5) false (some 0) 100).map
      (fun vd => (vd.quick_vent_mode, vd.quick_vent_start)) = some (true, some 0) ∧
    (ventDecision cfgDefault 10 50 70 70 false (some 0) false none 100).map
      (fun vd => (vd.limited_mode, vd.limited_cycle_start)) = some (true, some 0) ∧
    ventDecision cfgDefault 10 50 71 80 true (some 5) true (some 7) 100
      = some ⟨true, false, none, false, none⟩ := by
  refine ⟨?_, ?_, ?_⟩
  · exact (mode_lifecycle_c8_amended cfgDefault 10 50 80 72 0 true false (some 5) none 100).1
      (by norm_num [cfgDefault]) (by norm_num [cfgDefault, temp_in_range])
      (by norm_num [cfgDefault]) (by norm_num [cfgDefault, temp_would_bring_closer])
      (by norm_num [cfgDefault, outdoor_hotter_than_ideal])
  · exact (mode_lifecycle_c8_amended cfgDefault 10 50 70 70 0 false false none none 100).2.1
      (by norm_num [cfgDefault]) (by norm_num [cfgDefault, temp_in_range])
      (by norm_num [cfgDefault]) (by norm_num [cfgDefault, temp_would_bring_closer])
      (by norm_num [cfgDefault, outdoor_hotter_than_ideal, outdoor_too_cold])
      (by norm_num [cfgDefault, Config.limited_cycle_len])
  · exact (mode_lifecycle_c8_amended cfgDefault 10 50 71 80 0 true true (some 5) (some 7) 100).2.2
      (by norm_num [cfgDefault]) (by norm_num [cfgDefault, temp_in_range])
      (by norm_num [cfgDefault]) (by norm_num [cfgDefault, temp_would_bring_closer])

end VentSM

namespace VentSM

/-- Whether a construction attempt produced an engine instead of raising. -/
def exceptAccepted {α : Type} (e : Except String α) : Bool :=
  match e with
  | Except.ok _ => true
  | Except.error _ => false

/-- Counterexample to C9: constructing an engine with a zero-length
smoothing window AND zero limited-vent ON and OFF durations succeeds —
`__init__` (lines 577-631) contains no validation (Python's
`deque(maxlen=0)` is legal), so the invalid configuration is accepted
rather than rejected with an error. -/
theorem config_validation_c9_counterexample :
    exceptAccepted (mkStateMachine 50 35 72 85 60 0 90 0 60 0 0 300) = true := by
  rfl

/-- Claim C9 as amended: construction never validates the configuration
invariants — a zero smoothing window together with `limited_on_s + limited_off_s = 0`
is accepted (only `deque`'s own rejection of a negative `maxlen` can make
construction fail), the invalid configuration does reach the update path,
and the first update that evaluates the limited-vent phase dies there with
a `ZeroDivisionError` instead of having been rejected at construction. -/
theorem config_validation_c9_amended :
    exceptAccepted (mkStateMachine 50 35 0 85 60 0 90 0 60 0 0 300) = true ∧
    exceptAccepted (mkStateMachine 50 35 72 85 60 0 90 (-1) 60 600 3000 300) = false ∧
    (mkStateMachine 50 35 0 85 60 0 90 0 60 0 0 300).toOption.map
      (fun p => update p.1 p.2 ⟨some ⟨0, 0, 0⟩, none, none, some 0, 0⟩) = some none := by
  refine ⟨rfl, rfl, ?_⟩
  norm_num [mkStateMachine, Except.toOption, update, ventDecision, dehumDecision,
    ventActuate, dehumActuate, indoorValues, initState, avg, dequeAppend, pyMod,
    Config.limited_cycle_len, temp_in_range, temp_would_bring_closer, outdoor_too_cold,
    indoor_warmer_than_ideal, outdoor_cooler_than_ideal, outdoor_hotter_than_ideal]

end VentSM

namespace VentSM

/-- When the current vent pin is LOW and the debounce window is still
open, the vent actuation changes nothing, whatever is desired. -/
theorem ventActuate_closed_suppressed (cfg : Config) (a : ℚ) (d : Bool) (t1 now : ℚ)
    (ht : ¬ now - t1 ≥ cfg.min_change_interval_s) :
    ventActuate cfg a d false (some t1) now = (false, some t1) := by
  rw [ventActuate.eq_def, if_neg (by simp)]
  cases d
  · rw [if_neg (by simp)]
  · rw [if_pos (by simp)]
    simp [ht]

/-- Any update executed while the vent pin is LOW and the debounce window
since `t1` is still open leaves the pin LOW and the recorded change time
untouched. -/
theorem update_keeps_suppressed_vent (cfg : Config) (s1 s2 : SMState) (inp : UpdateInput)
    (t1 : ℚ) (hpin : s1.vent_pin = false) (hl : s1.last_vent_change = some t1)
    (ht : ¬ inp.now - t1 ≥ cfg.min_change_interval_s)
    (hu : update cfg s1 inp = some s2) :
    s2.vent_pin = false ∧ s2.last_vent_change = some t1 := by
  cases hod : inp.outdoor with
  | none =>
    simp only [update, hod, Option.some.injEq] at hu
    subst hu
    exact ⟨hpin, hl⟩
  | some od =>
    simp only [update, hod] at hu
    split at hu
    · exact Option.noConfusion hu
    · rename_i vd hvd
      obtain rfl := Option.some.inj hu
      constructor
      · show (ventActuate cfg _ vd.desired_vent s1.vent_pin s1.last_vent_change inp.now).1 = false
        rw [hpin, hl, ventActuate_closed_suppressed cfg _ _ t1 inp.now ht]
      · show (ventActuate cfg _ vd.desired_vent s1.vent_pin s1.last_vent_change inp.now).2 = some t1
        rw [hpin, hl, ventActuate_closed_suppressed cfg _ _ t1 inp.now ht]

/-- Claim C10: whenever the AQI emergency closure fires (average AQI above
threshold with the vent currently ON), the engine records the closure time
as the vent's last-change timestamp, and any vent change desired in a
later update less than `min_change_interval_s` after the closure is
suppressed by the debounce gate: the pin stays LOW and the timestamp keeps
the closure time. -/
theorem aqi_closure_sets_debounce_c10 (cfg : Config) (s s1 s2 : SMState)
    (inp1 inp2 : UpdateInput) (od1 : OutdoorSample)
    (hod1 : inp1.outdoor = some od1)
    (haqi : avg (dequeAppend cfg.smoothing_samples s.aqi_hist od1.pm25_aqi) > cfg.AQI_THRESHOLD)
    (hpin : s.vent_pin = true)
    (hu1 : update cfg s inp1 = some s1)
    (hu2 : update cfg s1 inp2 = some s2)
    (ht : ¬ inp2.now - inp1.now ≥ cfg.min_change_interval_s) :
    s1.vent_pin = false ∧ s1.last_vent_change = some inp1.now ∧
    s2.vent_pin = false ∧ s2.last_vent_change = some inp1.now := by
  have hvd := ventDecision_high_aqi cfg
    (avg (dequeAppend cfg.smoothing_samples s.aqi_hist od1.pm25_aqi))
    (avg (dequeAppend cfg.smoothing_samples s.hum_hist od1.humidity))
    (avg (dequeAppend cfg.smoothing_samples s.temp_hist od1.temperature_f))
    (indoorValues cfg s inp1).indoor_temperature
    s.limited_mode s.quick_vent_mode s.limited_cycle_start s.quick_vent_start inp1.now haqi
  rw [update_unfold cfg s inp1 od1 hod1 _ hvd] at hu1
  obtain rfl := Option.some.inj hu1
  have hva := (ventActuate_high_aqi cfg
    (avg (dequeAppend cfg.smoothing_samples s.aqi_hist od1.pm25_aqi))
    s.vent_pin s.last_vent_change inp1.now haqi).2 hpin
  have h1p : (ventActuate cfg
      (avg (dequeAppend cfg.smoothing_samples s.aqi_hist od1.pm25_aqi))
      false s.vent_pin s.last_vent_change inp1.now).1 = false := by rw [hva]
  have h1l : (ventActuate cfg
      (avg (dequeAppend cfg.smoothing_samples s.aqi_hist od1.pm25_aqi))
      false s.vent_pin s.last_vent_change inp1.now).2 = some inp1.now := by rw [hva]
  have h2 := update_keeps_suppressed_vent cfg _ s2 inp2 inp1.now h1p h1l ht hu2
  exact ⟨h1p, h1l, h2.1, h2.2⟩

/-- A state with the vent already ON and everything else initial. -/
def sVentOn : SMState :=
  ⟨[], [], [], [], [], none, none, none, false, none, false, true, false⟩

/-- First emergency-run input: AQI sample 100 at time 0. -/
def inpEm1 : UpdateInput := ⟨some ⟨100, 50, 70⟩, none, none, none, 0⟩

/-- Second emergency-run input: AQI back to safe, 30 s later. -/
def inpEm2 : UpdateInput := ⟨some ⟨0, 50, 70⟩, none, none, none, 30⟩

/-- State after the emergency closure fires on `inpEm1`. -/
def s1Em : SMState :=
  ⟨[70], [50], [100], [], [], some 0, none, none, false, none, false, false, false⟩

/-- State after the follow-up cycle `inpEm2`: the limited-vent phase wants
the vent ON, but the debounce gate set by the emergency closure holds it. -/
def s2Em : SMState :=
  ⟨[70, 70], [50, 50], [100, 0], [], [], some 0, none, some 30, true, none, false, false, false⟩

/-- Witness for C10 on the concrete emergency run. -/
theorem aqi_closure_sets_debounce_c10_witness :
    s1Em.vent_pin = false ∧ s1Em.last_vent_change = some 0 ∧
    s2Em.vent_pin = false ∧ s2Em.last_vent_change = some 0 := by
  have h := aqi_closure_sets_debounce_c10 cfgDefault sVentOn s1Em s2Em inpEm1 inpEm2
    ⟨100, 50, 70⟩ rfl (by norm_num [avg, dequeAppend, cfgDefault, sVentOn]) rfl
    (by norm_num [update, ventDecision, dehumDecision, ventActuate, dehumActuate, indoorValues,
      cfgDefault, sVentOn, inpEm1, s1Em, avg, dequeAppend, pyMod, Config.limited_cycle_len,
      temp_in_range, temp_would_bring_closer, outdoor_too_cold, indoor_warmer_than_ideal,
      outdoor_cooler_than_ideal, outdoor_hotter_than_ideal])
    (by norm_num [update, ventDecision, dehumDecision, ventActuate, dehumActuate, indoorValues,
      cfgDefault, inpEm2, s1Em, s2Em, avg, dequeAppend, pyMod, Config.limited_cycle_len,
      temp_in_range, temp_would_bring_closer, outdoor_too_cold, indoor_warmer_than_ideal,
      outdoor_cooler_than_ideal, outdoor_hotter_than_ideal])
    (by norm_num [cfgDefault, inpEm1, inpEm2])
  exact h

end VentSM
